import Mathlib

/-!
Shallow embedding of the invoice-to-payment pipeline of the
Invoice-payment-agent repository, centred on
`backend/src/agents/payment_agent.py` (`process_payment` and its helpers),
`backend/src/multi_agent.py` (`save_payment_history`, `categorize_error`,
the per-invoice payment step of `process_invoices`),
`backend/invoice_payment_processor.py` (`extract_payment_info_from_text`)
and `backend/src/agents/pdf_agent.py` (`PaymentExtractor.extract`).

Conventions of the embedding:
* Python dictionaries become structures; a key that may be absent or hold
  `None` becomes an `Option` field (absent and `None` are conflated exactly
  where the source only ever reads the key with `dict.get`).
* Python truthiness of strings/amounts is made explicit (`truthyStr`,
  `truthyMoney`).
* Monetary amounts (Python floats) are embedded as integer cents
  (`Money := ℤ`); every amount handled by the claims has at most two
  decimal places, where this embedding is exact.
* External collaborators (Payman tools, the Gmail/LLM agent, the `re` and
  `json` libraries) are modelled by an environment `Env` carrying their
  responses; each external call performed by the code is recorded in a
  trace of `ProviderCall` events.
* The history file `invoice data/payment_history.json` is modelled by
  `HistoryFile`: `absent` (file missing), `corrupt` (unreadable or invalid
  JSON) or `ok records`.
-/

namespace InvoicePipeline

/-- Monetary amounts in integer cents (exact embedding of the two-decimal
dollar amounts the source manipulates as Python floats). -/
abbrev Money := ℤ

/-! ### String primitives

The embedding re-implements the string operations used by the source
(`in`, `str.split`, `str.strip`, `str.lower`, `str.upper`, `str.isdigit`,
`float(...)` parsing, `f"{...:,.2f}"` formatting) over `List Char`, so that
all definitions evaluate inside the kernel. -/

/-- Index of the first occurrence of `pat` inside `l`, if any. -/
def findSub (l pat : List Char) : Option Nat :=
  (List.range (l.length + 1)).find? (fun i => pat.isPrefixOf (l.drop i))

/-- Python's substring test `pat in s`. -/
def sContains (s pat : String) : Bool :=
  (findSub s.data pat.data).isSome

/-- Python's `s.split(pat)[1]`: the segment strictly between the first and
second occurrence of `pat` (up to the end of the string when `pat` occurs
only once); `none` when `pat` does not occur (Python raises `IndexError`
for index 1 in that case). -/
def splitIndex1 (s pat : String) : Option String :=
  (findSub s.data pat.data).map (fun i =>
    let rest := s.data.drop (i + pat.data.length)
    match findSub rest pat.data with
    | some j => String.mk (rest.take j)
    | none => String.mk rest)

/-- Python's `s.strip()`. -/
def sTrim (s : String) : String :=
  String.mk (((s.data.dropWhile Char.isWhitespace).reverse.dropWhile
    Char.isWhitespace).reverse)

/-- ASCII lower-casing of one character (the strings the source lower-cases
are ASCII). -/
def lowerChar (c : Char) : Char :=
  if 65 ≤ c.toNat ∧ c.toNat ≤ 90 then Char.ofNat (c.toNat + 32) else c

/-- ASCII upper-casing of one character. -/
def upperChar (c : Char) : Char :=
  if 97 ≤ c.toNat ∧ c.toNat ≤ 122 then Char.ofNat (c.toNat - 32) else c

/-- Python's `s.lower()`. -/
def sLower (s : String) : String := String.mk (s.data.map lowerChar)

/-- Python's `s.upper()`. -/
def sUpper (s : String) : String := String.mk (s.data.map upperChar)

/-- Value of a list of decimal digit characters. -/
def digitsVal (cs : List Char) : ℤ :=
  cs.foldl (fun a c => a * 10 + (Int.ofNat (c.toNat - 48))) 0

/-- Cent value of the fractional digit list of a decimal numeral (the
amounts the source handles have at most two fractional digits; further
digits are sub-cent and dropped by this fixed-point embedding). -/
def fracCents : List Char → ℤ
  | [] => 0
  | [a] => 10 * Int.ofNat (a.toNat - 48)
  | a :: b :: _ => 10 * Int.ofNat (a.toNat - 48) + Int.ofNat (b.toNat - 48)

/-- Python's `float(s)` on plain decimal numerals (optional sign, integer
digits, optional fractional digits), returning cents; `none` where Python
raises `ValueError` (empty string, stray characters such as commas). -/
def parseMoney (s : String) : Option Money :=
  let cs := s.data
  let signed : ℤ × List Char :=
    match cs with
    | '-' :: t => (-1, t)
    | '+' :: t => (1, t)
    | t => (1, t)
  let intPart := signed.2.takeWhile Char.isDigit
  let rest := signed.2.dropWhile Char.isDigit
  match rest with
  | [] =>
    if intPart = [] then none
    else some (signed.1 * (digitsVal intPart * 100))
  | '.' :: frac =>
    if frac.all Char.isDigit ∧ (intPart ≠ [] ∨ frac ≠ []) then
      some (signed.1 * (digitsVal intPart * 100 + fracCents frac))
    else none
  | _ => none

/-- Comma-grouping of a reversed digit list (helper for `format_currency`). -/
def groupRev : List Char → List Char
  | a :: b :: c :: d :: rest => a :: b :: c :: ',' :: groupRev (d :: rest)
  | l => l

/-- The `format_currency` helper of `tools/shared_tools.py` for the `"USD"`
branch: Python's `f"${amount:,.2f}"` (the only branch the pipeline uses). -/
def format_currency (m : Money) : String :=
  let n := m.natAbs
  let dollars := n / 100
  let cents := n % 100
  let ds := String.mk ((groupRev (toString dollars).data.reverse).reverse)
  let cs := (if cents < 10 then "0" else "") ++ toString cents
  (if m < 0 then "$-" else "$") ++ (ds ++ ("." ++ cs))

/-- Python's `", ".join(fields)` as used for the validation error message. -/
def joinComma : List String → String
  | [] => ""
  | [s] => s
  | s :: rest => s ++ ", " ++ joinComma rest

/-- Python truthiness of an optional string (`None` and `""` are falsy). -/
def truthyStr : Option String → Bool
  | none => false
  | some s => decide (s ≠ "")

/-- Python truthiness of an optional amount (`None` and `0` are falsy). -/
def truthyMoney : Option Money → Bool
  | none => false
  | some m => decide (m ≠ 0)

/-! ### Data model -/

/-- The `email_data` dictionary attached to an invoice and stored inside a
history record.  Each key may be absent or `None` (`none`) or hold a string;
the source compares these values with Python `==`, which `Option` equality
mirrors (`None == None` is `True`). -/
structure EmailData where
  thread_id : Option String
  message_id : Option String
  sender : Option String
  subject : Option String
  attachment_id : Option String
deriving DecidableEq

/-- The optional `bank_details` dictionary of an extracted invoice
(schema of `pdf_agent.py`). -/
structure BankDetails where
  account_holder_name : Option String
  account_number : Option String
  routing_number : Option String
  account_type : Option String
  bank_name : Option String
deriving DecidableEq

/-- The optional `payee_details` dictionary of an extracted invoice. -/
structure PayeeDetails where
  contact_type : Option String
  email : Option String
  phone : Option String
  address : Option String
  tax_id : Option String
deriving DecidableEq

/-- The `invoice_data` dictionary handed to `process_payment`
(the output format of `pdf_agent.PaymentExtractor.extract`). -/
structure InvoiceData where
  invoice_number : Option String
  paid_amount : Option Money
  recipient : Option String
  date : Option String
  due_date : Option String
  description : Option String
  bank_details : Option BankDetails
  payee_details : Option PayeeDetails
  email_data : EmailData
deriving DecidableEq

/-- The `invoice_data` snapshot stored inside a history record. -/
structure InvoiceSnapshot where
  invoice_number : Option String
  paid_amount : Option Money
  recipient : Option String
  date : Option String
  due_date : Option String
  description : Option String
deriving DecidableEq

/-- The `result` object stored inside a history record.  `status` is `none`
because no writer in the repository ever stores that key; readers access it
with `dict.get` and a default. -/
structure ResultRecord where
  success : Bool
  error : Option String
  error_type : Option String
  email_sent : Bool
  payment_id : Option String
  status : Option String
deriving DecidableEq

/-- One entry of `invoice data/payment_history.json`. -/
structure HistoryRecord where
  timestamp : String
  email_data : EmailData
  invoice_data : InvoiceSnapshot
  result : ResultRecord
deriving DecidableEq

/-- State of the history file: missing, unreadable/invalid JSON, or a list
of records. -/
inductive HistoryFile where
  | absent
  | corrupt
  | ok (records : List HistoryRecord)
deriving DecidableEq

/-- A payee as returned by the Payman search tool (the pipeline only reads
`id`; `name` is carried for completeness). -/
structure Payee where
  id : String
  name : String
deriving DecidableEq

/-- The `contactDetails` sub-dictionary of a bank-details payment
destination. -/
structure ContactDetails where
  contactType : String
  email : String
  phoneNumber : String
  address : String
  taxId : String
deriving DecidableEq

/-- The destination of a dispatched payment: either an inline `US_ACH`
bank-account descriptor built from extracted bank details, or the id of an
existing provider-side payee. -/
inductive PaymentDestination where
  | bankAccount (accountHolderName accountNumber accountType routingNumber
      name : String) (contactDetails : ContactDetails)
  | payee (id : String)
deriving DecidableEq

/-- One external provider/messaging call performed by the pipeline. -/
inductive ProviderCall where
  | balanceCheck
  | payeeSearch (name : String)
  | paymentDispatch (amount : Money) (dest : PaymentDestination) (memo : String)
  | bankDetailsEmail (thread_id : String) (amount : Money) (payeeExists : Bool)
  | checkoutUrlRequest (amount : Money) (memo : String)
deriving DecidableEq

/-- The `duplicate_info` sub-dictionary of a duplicate outcome of
`process_payment` (keys that a branch does not set are `none`). -/
structure DuplicateInfo where
  processed_at : String
  payment_id : Option String
  status : Option String
  error : Option String
deriving DecidableEq

/-- The result dictionary returned by `process_payment`; keys that a branch
does not set are `none`. -/
structure PaymentResult where
  success : Bool
  error : Option String
  invoice_number : Option String
  payment_id : Option String
  payment_method : Option String
  duplicate_info : Option DuplicateInfo
  email_sent : Option Bool
  action_required : Option String
  payee_exists : Option Bool
deriving DecidableEq

/-- The result of `send_bank_details_request`. -/
structure EmailSendResult where
  success : Bool
  error : Option String
deriving DecidableEq

/-- Responses of the external collaborators for one pipeline run:
`balanceResponse` is the raw string of the balance tool (`none` models no
response or an exception), `payeeSearchResponse` the JSON-decoded payee
list (`none` models a missing or unparseable response),
`bankPaymentResponse`/`payeePaymentResponse` the raw strings of the payment
tool for the two kinds of dispatch, `checkoutResponse` the JSON-decoded
checkout reply (outer `none`: no/unparseable response; inner option: its
`"url"` field), and `emailSendSuccess` whether the Gmail agent confirmed
the bank-details request email. -/
structure Env where
  balanceResponse : Option String
  payeeSearchResponse : Option (List Payee)
  bankPaymentResponse : Option String
  payeePaymentResponse : Option String
  checkoutResponse : Option (Option String)
  emailSendSuccess : Bool
deriving DecidableEq

/-! ### `backend/src/agents/payment_agent.py` -/

namespace PaymentAgent

/-- Helper mirror of `check_balance`: the parse of a raw balance-tool
response string.  The Python body returns `0.0` at each failure point; here
the failure points return `none` and `check_balance` maps them to `0`.
Mirrors: the `"Current balance:" not in result` test, `result.split("$")[1]`
(`IndexError` when no `$` occurs), `.strip()`, and `float(...)`. -/
def parseBalanceResponse (s : String) : Option Money :=
  if sContains s "Current balance:" then
    match s.data.dropWhile (· ≠ '$') with
    | _ :: afterDollar =>
      parseMoney (sTrim (String.mk (afterDollar.takeWhile (· ≠ '$'))))
    | [] => none
  else none

/-- The `check_balance` function (lines 140-165): any exception, falsy or
unparseable response yields `0.0`. -/
def check_balance (resp : Option String) : Money :=
  match resp with
  | none => 0
  | some s => if s = "" then 0 else (parseBalanceResponse s).getD 0

/-- The payment-id extraction shared by `send_payment` and the inline
bank-details dispatch of `process_payment`: a falsy response or one without
`"Reference:"` yields `none`; otherwise `result.split("Reference:")[1].strip()`. -/
def extractReference (resp : Option String) : Option String :=
  match resp with
  | none => none
  | some s =>
    if s = "" then none
    else
      match splitIndex1 s "Reference:" with
      | some seg => some (sTrim seg)
      | none => none

/-- The `search_or_create_payee` function (lines 167-237): despite its name
it only searches; a missing or unparseable response, or an empty payee
list, yields `none`, otherwise the first payee is selected. -/
def search_or_create_payee (resp : Option (List Payee)) : Option Payee :=
  match resp with
  | none => none
  | some [] => none
  | some (p :: _) => some p

/-- The `send_payment` function (lines 260-295): runs the payment tool and
extracts the reference, `none` on any failure. -/
def send_payment (resp : Option String) : Option String :=
  extractReference resp

/-- The `generate_checkout_url` function (lines 239-258): runs the checkout
tool and reads the `"url"` field of its JSON response; any failure yields
`none`.  The call to the tool is recorded in the trace.  (No caller in the
pipeline ever invokes this function.) -/
def generate_checkout_url (resp : Option (Option String)) (amount : Money)
    (memo : String) : Option String × List ProviderCall :=
  (match resp with
   | none => none
   | some url => url,
   [ProviderCall.checkoutUrlRequest amount memo])

/-- The `is_invoice_processed` function (lines 297-319): `False` when the
history file is missing or any exception occurs, otherwise `True` exactly
when some record matches `invoice_number` and `recipient` and has
`result.success` truthy. -/
def is_invoice_processed (history : HistoryFile)
    (invoice_number recipient : String) : Bool :=
  match history with
  | .absent => false
  | .corrupt => false
  | .ok h =>
    h.any (fun payment =>
      decide (payment.invoice_data.invoice_number = some invoice_number) &&
      decide (payment.invoice_data.recipient = some recipient) &&
      payment.result.success)

/-- The exact-duplicate test of `is_duplicate_invoice` (lines 547-548):
equality of `message_id` and `attachment_id` under Python `==`. -/
def exact_email_match (email_data : EmailData) (record : HistoryRecord) : Bool :=
  decide (record.email_data.message_id = email_data.message_id) &&
  decide (record.email_data.attachment_id = email_data.attachment_id)

/-- The similar-invoice test of `is_duplicate_invoice` (lines 556-559). -/
def similar_invoice_match (invoice_data : InvoiceData)
    (record : HistoryRecord) : Bool :=
  decide (record.invoice_data.invoice_number = invoice_data.invoice_number) &&
  decide (record.invoice_data.date = invoice_data.date) &&
  decide (record.invoice_data.paid_amount = invoice_data.paid_amount) &&
  decide (record.invoice_data.recipient = invoice_data.recipient)

/-- The settled test of `is_duplicate_invoice` (lines 549 and 560):
`record["result"].get("success") or record["result"].get("error") ==
"Invoice already processed"`. -/
def settled_result (record : HistoryRecord) : Bool :=
  record.result.success ||
  decide (record.result.error = some "Invoice already processed")

/-- The `is_duplicate_invoice` function (lines 534-569).  The first
exact-id match decides; only when no exact match exists does the first
similar-invoice match decide.  A settled match yields `none` ("skipping
history update"); a missing, unreadable or invalid history file also
yields `none`. -/
def is_duplicate_invoice (history : HistoryFile) (invoice_data : InvoiceData)
    (email_data : EmailData) : Option HistoryRecord :=
  match history with
  | .absent => none
  | .corrupt => none
  | .ok h =>
    match h.find? (exact_email_match email_data) with
    | some record => if settled_result record then none else some record
    | none =>
      match h.find? (similar_invoice_match invoice_data) with
      | some record => if settled_result record then none else some record
      | none => none

/-- The `result` dictionary handed to `save_payment_history`
(the outcome of one pipeline run, read with `dict.get`). -/
structure RunOutcome where
  success : Bool
  error : Option String
  email_sent : Bool
  payment_id : Option String
deriving DecidableEq

/-- The `save_payment_history` function of `payment_agent.py`
(lines 321-387), as a pure map from the previous file state to the new
list of records.  A missing file or invalid JSON starts from `[]`; if any
existing entry matches the exact email ids or the similar-invoice tuple,
nothing is written; otherwise exactly one record (with `dict.get`
defaults) is appended.  `now` is `datetime.now().isoformat()`. -/
def save_payment_history (history : HistoryFile) (now : String)
    (email_data : EmailData) (invoice_data : InvoiceData)
    (result : RunOutcome) : List HistoryRecord :=
  let h := match history with | .ok h => h | _ => []
  if h.any (fun entry =>
      (decide (entry.email_data.message_id = email_data.message_id) &&
       decide (entry.email_data.attachment_id = email_data.attachment_id)) ||
      (decide (entry.invoice_data.invoice_number = invoice_data.invoice_number) &&
       decide (entry.invoice_data.date = invoice_data.date) &&
       decide (entry.invoice_data.paid_amount = invoice_data.paid_amount) &&
       decide (entry.invoice_data.recipient = invoice_data.recipient))) then
    h
  else
    h ++ [⟨now,
      ⟨some (email_data.thread_id.getD ""), some (email_data.message_id.getD ""),
       some (email_data.sender.getD ""), some (email_data.subject.getD ""),
       some (email_data.attachment_id.getD "")⟩,
      ⟨some (invoice_data.invoice_number.getD ""),
       some (invoice_data.paid_amount.getD 0),
       some (invoice_data.recipient.getD ""), some (invoice_data.date.getD ""),
       some (invoice_data.due_date.getD ""),
       some (invoice_data.description.getD "")⟩,
      ⟨result.success, result.error, none, result.email_sent,
       result.payment_id, none⟩⟩]

/-- The `send_bank_details_request` function (lines 389-532): a falsy
`thread_id` or recipient email is a precondition failure and no send is
attempted; otherwise the Gmail agent is invoked (recorded in the trace)
and its confirmation decides success.  The agent and its message template
are external collaborators; a failed send reports the agent's default
error. -/
def send_bank_details_request (env : Env) (thread_id recipient : Option String)
    (amount : Money) (payee_exists : Bool) : EmailSendResult × List ProviderCall :=
  if ¬ truthyStr thread_id then (⟨false, some "Missing thread_id"⟩, [])
  else if ¬ truthyStr recipient then
    (⟨false, some "Missing recipient email"⟩, [])
  else if env.emailSendSuccess then
    (⟨true, none⟩,
     [ProviderCall.bankDetailsEmail (thread_id.getD "") amount payee_exists])
  else
    (⟨false, some "Failed to send email"⟩,
     [ProviderCall.bankDetailsEmail (thread_id.getD "") amount payee_exists])

/-- The missing-field scan of `process_payment` (lines 605-607):
`required_fields = ["invoice_number", "paid_amount", "recipient"]`, a field
is missing when `invoice_data.get(f)` is falsy. -/
def missing_required_fields (invoice_data : InvoiceData) : List String :=
  (if truthyStr invoice_data.invoice_number then [] else ["invoice_number"]) ++
  (if truthyMoney invoice_data.paid_amount then [] else ["paid_amount"]) ++
  (if truthyStr invoice_data.recipient then [] else ["recipient"])

/-- The validation error message of `process_payment` (line 612). -/
def missing_fields_error (missing : List String) : String :=
  "Missing required fields: " ++ joinComma missing

/-- The insufficient-balance error message of `process_payment` (line 696). -/
def insufficient_balance_error (balance amount : Money) : String :=
  "Insufficient balance: " ++
    (format_currency balance ++ (" < " ++ format_currency amount))

/-- The payment memo (lines 749 and 784):
`invoice_data.get("description", f"Invoice {invoice_data['invoice_number']}")`. -/
def payment_memo (invoice_data : InvoiceData) : String :=
  invoice_data.description.getD
    ("Invoice " ++ invoice_data.invoice_number.getD "")

/-- The `contactDetails` of the inline bank-details destination
(lines 735-741), with the `dict.get` defaults of the source. -/
def contact_details_of (invoice_data : InvoiceData) : ContactDetails :=
  match invoice_data.payee_details with
  | none => ⟨"individual", "", "", "", ""⟩
  | some pd =>
    ⟨pd.contact_type.getD "individual", pd.email.getD "", pd.phone.getD "",
     pd.address.getD "", pd.tax_id.getD ""⟩

/-- An apostrophe character, used by the destination display name built at
line 734. -/
def apostrophe : String := String.mk [Char.ofNat 39]

/-- The inline `payment_destination` dictionary of `process_payment`
(lines 728-742): type `US_ACH`, account holder = the invoice recipient,
`account_type` lower-cased, and the display name
`f"{recipient}'s {account_type} Account"`. -/
def bank_payment_destination (invoice_data : InvoiceData)
    (bd : BankDetails) : PaymentDestination :=
  .bankAccount (invoice_data.recipient.getD "") (bd.account_number.getD "")
    (sLower (bd.account_type.getD "")) (bd.routing_number.getD "")
    (invoice_data.recipient.getD "" ++
      (apostrophe ++ ("s " ++ (bd.account_type.getD "" ++ " Account"))))
    (contact_details_of invoice_data)

/-- The final fallback of `process_payment` (lines 797-813): neither a
successful bank-details dispatch nor a successful payee payment happened,
so a bank-details request email is attempted and the run returns the
`"Bank details and payee information required"` failure carrying
`email_sent` and `action_required`. -/
def email_request_step (env : Env) (invoice_data : InvoiceData)
    (trace : List ProviderCall) : PaymentResult × List ProviderCall :=
  let amt := invoice_data.paid_amount.getD 0
  let sent := send_bank_details_request env invoice_data.email_data.thread_id
    invoice_data.email_data.sender amt false
  (⟨false, some "Bank details and payee information required",
    invoice_data.invoice_number, none, none, none, some sent.1.success,
    some "bank_details", some false⟩,
   trace ++ sent.2)

/-- The existing-payee branch of `process_payment` (lines 767-795): search
the provider by recipient name; when a payee is found, dispatch to its id
and, if a reference comes back truthy, return the `existing_payee`
success; in every other case fall through to the email request. -/
def payee_search_step (env : Env) (invoice_data : InvoiceData)
    (trace : List ProviderCall) : PaymentResult × List ProviderCall :=
  let trace := trace ++ [ProviderCall.payeeSearch (invoice_data.recipient.getD "")]
  match search_or_create_payee env.payeeSearchResponse with
  | some payee =>
    let amt := invoice_data.paid_amount.getD 0
    let trace := trace ++
      [ProviderCall.paymentDispatch amt (.payee payee.id) (payment_memo invoice_data)]
    let payment_id := send_payment env.payeePaymentResponse
    if truthyStr payment_id then
      (⟨true, none, invoice_data.invoice_number, some (payment_id.getD ""),
        some "existing_payee", none, none, none, none⟩, trace)
    else email_request_step env invoice_data trace
  | none => email_request_step env invoice_data trace

/-- The inline bank-details branch of `process_payment` (lines 711-765):
when the extracted `bank_details` dictionary is truthy and its
`account_number`, `routing_number` and `account_type` are all truthy, a
payment with the inline destination is dispatched first; only a response
carrying `"Reference:"` returns the `bank_details` success — otherwise the
code falls through to the payee search. -/
def bank_details_step (env : Env) (invoice_data : InvoiceData)
    (trace : List ProviderCall) : PaymentResult × List ProviderCall :=
  match invoice_data.bank_details with
  | some bd =>
    if truthyStr bd.account_number && truthyStr bd.routing_number &&
        truthyStr bd.account_type then
      let amt := invoice_data.paid_amount.getD 0
      let trace := trace ++
        [ProviderCall.paymentDispatch amt (bank_payment_destination invoice_data bd)
          (payment_memo invoice_data)]
      match extractReference env.bankPaymentResponse with
      | some payment_id =>
        (⟨true, none, invoice_data.invoice_number, some payment_id,
          some "bank_details", none, none, none, none⟩, trace)
      | none => payee_search_step env invoice_data trace
    else payee_search_step env invoice_data trace
  | none => payee_search_step env invoice_data trace

/-- The duplicate branch of `process_payment` (lines 625-672).  Records are
always written with an `error` key, so `duplicate["result"].get("error",
"Duplicate invoice found")` is the stored value itself (`dict.get` only
falls back when the key is absent); `status` is never stored, so its
`dict.get` default applies. -/
def duplicate_result (invoice_data : InvoiceData)
    (dup : HistoryRecord) : PaymentResult :=
  if dup.result.success then
    ⟨false, some "Invoice was previously processed successfully",
     invoice_data.invoice_number, none, none,
     some ⟨dup.timestamp, dup.result.payment_id, some "success", none⟩,
     none, none, none⟩
  else
    let status := dup.result.status.getD
      (if dup.result.email_sent then "pending" else "failed")
    ⟨false, dup.result.error, invoice_data.invoice_number, none, none,
     some ⟨dup.timestamp, none, some status, dup.result.error⟩,
     none, none, none⟩

/-- The `process_payment` pipeline (lines 571-839): validation by
truthiness, duplicate check, processed check, balance gate, then the
dispatch phase.  The returned trace lists the external calls performed. -/
def process_payment (history : HistoryFile) (env : Env)
    (invoice_data : InvoiceData) : PaymentResult × List ProviderCall :=
  let missing := missing_required_fields invoice_data
  if missing ≠ [] then
    (⟨false, some (missing_fields_error missing), invoice_data.invoice_number,
      none, none, none, none, none, none⟩, [])
  else
    match is_duplicate_invoice history invoice_data invoice_data.email_data with
    | some dup => (duplicate_result invoice_data dup, [])
    | none =>
      if is_invoice_processed history (invoice_data.invoice_number.getD "")
          (invoice_data.recipient.getD "") then
        (⟨false, some "Invoice was already processed",
          invoice_data.invoice_number, none, none, none, none, none, none⟩, [])
      else
        let balance := check_balance env.balanceResponse
        let amt := invoice_data.paid_amount.getD 0
        if balance < amt then
          (⟨false, some (insufficient_balance_error balance amt),
            invoice_data.invoice_number, none, none, none, none, none, none⟩,
           [ProviderCall.balanceCheck])
        else
          bank_details_step env invoice_data [ProviderCall.balanceCheck]

end PaymentAgent

/-! ### `backend/src/multi_agent.py` -/

namespace MultiAgent

/-- Python's falsy-chaining `a or b` on optional strings (`None` and `""`
are falsy; `b` is returned verbatim). -/
def orS (a b : Option String) : Option String :=
  match a with
  | some s => if s = "" then b else some s
  | none => b

/-- The `categorize_error` function (lines 446-469), applied to the error
extracted from the payment data: `result.get("error") or
payment.get("error", "")`, then keyword classification on the lower-cased
message. -/
def categorize_error (result_error payment_error : Option String) : String :=
  let error := (orS result_error payment_error).getD ""
  if error = "" then "none"
  else
    let l := sLower error
    if sContains l "insufficient balance" then "insufficient_funds"
    else if sContains l "failed to find or create payee" then
      "payee_creation_failed"
    else if sContains l "missing" || sContains l "required" then
      "validation_error"
    else "other"

/-- The `payment_data` dictionary handed to `save_payment_history` of
`multi_agent.py`, flattened to the fields the function reads (the nested
`result` and `payment` dictionaries are read with `dict.get`). -/
structure MultiPaymentData where
  email : EmailData
  email_data : EmailData
  invoice_data : InvoiceSnapshot
  result_success : Bool
  result_error : Option String
  result_email_sent : Bool
  result_payment_id : Option String
  payment_success : Bool
  payment_error : Option String
  payment_reference : Option String
deriving DecidableEq

/-- The `save_payment_history` function of `multi_agent.py`
(lines 370-444): it first REMOVES every existing record whose `email_data`
`message_id` or `thread_id` equals the incoming one (records never carry a
top-level `"email"` key, so `record.get("email", {}).get(...)` is `None` in
those two comparisons), then appends one unified record whose result fields
are falsy-chained from `result` and `payment` and whose `error_type` comes
from `categorize_error`.  The multi-agent record stores no
`attachment_id`. -/
def save_payment_history (history : HistoryFile) (now : String)
    (pd : MultiPaymentData) : List HistoryRecord :=
  let existing := match history with | .ok h => h | _ => []
  let message_id := orS pd.email_data.message_id pd.email.message_id
  let thread_id := orS pd.email_data.thread_id pd.email.thread_id
  let existing := existing.filter (fun record =>
    !(decide (record.email_data.message_id = message_id) ||
      decide (record.email_data.thread_id = thread_id) ||
      decide ((none : Option String) = message_id) ||
      decide ((none : Option String) = thread_id)))
  existing ++
    [⟨now,
      ⟨thread_id, message_id, orS pd.email_data.sender pd.email.sender,
       orS pd.email_data.subject pd.email.subject, none⟩,
      pd.invoice_data,
      ⟨pd.result_success || pd.payment_success,
       orS pd.result_error pd.payment_error,
       some (categorize_error pd.result_error pd.payment_error),
       pd.result_email_sent,
       orS pd.result_payment_id pd.payment_reference,
       none⟩⟩]

/-- The per-invoice payment step of the orchestrator (`payment_node` and
`process_invoices` of `multi_agent.py`, lines 232-282 and 330-345): it
awaits `process_payment` and collects the result.  No call site of either
`save_payment_history` exists anywhere in the repository, so the history
file after the run is the history file before it. -/
def payment_step (history : HistoryFile) (env : Env)
    (invoice_data : InvoiceData) :
    PaymentResult × List ProviderCall × HistoryFile :=
  let run := PaymentAgent.process_payment history env invoice_data
  (run.1, run.2, history)

end MultiAgent

/-! ### `backend/invoice_payment_processor.py` -/

namespace Processor

/-- Results of the regex phase of `extract_payment_info_from_text`
(lines 111-165 and the fallback `re.findall`/line scans): the `re` module
is an external collaborator, so its matches are inputs.  The first five
fields are the per-field pattern matches (an `amount` match is stored only
when it parses to a value `> 0`, as the source validates); the remaining
fields are the fallback searches: `number_matches` the
`(?:^|\s)([A-Z0-9][-A-Z0-9]{2,})` findall, `amount_matches` the parsed
numbers found on `TOTAL`/`AMOUNT`/`DUE`/`BALANCE` lines, `name_matches`
the capitalized name-like findall, and `memo_fallback` the
description-line scan. -/
structure RegexFindings where
  invoice_number : Option String
  amount : Option Money
  recipient_name : Option String
  company_name : Option String
  memo : Option String
  number_matches : List String
  amount_matches : List Money
  name_matches : List String
  memo_fallback : Option String
deriving DecidableEq

/-- The payment dictionary produced by `extract_payment_info_from_text`
(lines 183-189). -/
structure ExtractedPayment where
  id : String
  amount : Money
  currency : String
  recipientName : String
  memo : String
deriving DecidableEq

/-- Python's `company.split()` (whitespace words, empties dropped). -/
def wordsAux : List Char → List Char → List String
  | [], acc => if acc.isEmpty then [] else [String.mk acc.reverse]
  | c :: rest, acc =>
    if c.isWhitespace then
      if acc.isEmpty then wordsAux rest []
      else String.mk acc.reverse :: wordsAux rest []
    else wordsAux rest (c :: acc)

/-- The company-initials computation of lines 128-130:
`''.join(word[0].upper() for word in company.split() if word)`. -/
def company_initials (company : String) : String :=
  String.mk ((wordsAux company.data []).filterMap
    (fun w => w.data.head?.map upperChar))

/-- The header filter of the recipient-name fallback (lines 156-161). -/
def common_headers : List String := ["INVOICE", "BILL", "TOTAL", "DESCRIPTION"]

/-- The `extract_payment_info_from_text` method (lines 111-204) after the
regex phase: the fallback/defaulting pipeline.  A missing invoice number is
replaced by the first findall match or fabricated as `"AUTO-" + timestamp`;
an all-digit invoice number is prefixed with company initials or
`"INV-" + month_stamp`; a missing amount falls back to the largest
keyword-line number, then defaults to `0`; a missing recipient falls back
to the first non-header name match, then defaults to
`"UNKNOWN RECIPIENT"`; finally the result is `None` iff the amount is
`<= 0`.  `timestamp` is `strftime('%Y%m%d%H%M%S')` and `month_stamp` is
`strftime('%Y%m')`. -/
def extract_payment_info_from_text (f : RegexFindings)
    (timestamp month_stamp : String) : Option ExtractedPayment :=
  let invoice_number :=
    match f.invoice_number with
    | some v => v
    | none =>
      match f.number_matches with
      | m :: _ => m
      | [] => "AUTO-" ++ timestamp
  let invoice_number :=
    if decide (invoice_number ≠ "") && invoice_number.data.all Char.isDigit then
      let company := f.company_name.getD ""
      if company ≠ "" then
        let initials := company_initials company
        if initials ≠ "" then initials ++ ("-" ++ invoice_number)
        else invoice_number
      else "INV-" ++ (month_stamp ++ ("-" ++ invoice_number))
    else invoice_number
  let amount : Option Money :=
    match f.amount with
    | some a => some a
    | none =>
      match f.amount_matches with
      | [] => none
      | a :: rest => some (rest.foldl max a)
  let recipient_name : Option String :=
    match f.recipient_name with
    | some v => some v
    | none =>
      f.name_matches.find? (fun nm =>
        !(common_headers.any (fun hd => sContains (sUpper nm) hd)))
  let memo :=
    match f.memo with
    | some v => some v
    | none => f.memo_fallback
  let payment : ExtractedPayment :=
    ⟨invoice_number, amount.getD 0, "USD",
     recipient_name.getD "UNKNOWN RECIPIENT",
     memo.getD "Software Development Services"⟩
  if payment.amount ≤ 0 then none else some payment

end Processor

/-! ### `backend/src/agents/pdf_agent.py` -/

namespace PdfAgent

/-- The argument object of a successful `extract_payment_details` function
call returned by the LLM (an external collaborator).  Fields the
conversion (lines 130-146 of the method) accesses with `[...]` are
required; fields accessed with `.get` are optional. -/
structure LLMExtraction where
  payee_name : String
  payee_contact_type : String
  payee_email : Option String
  payee_phone : Option String
  payee_address : Option String
  payee_tax_id : Option String
  bank_details : Option BankDetails
  payment_amount : Money
  payment_description : Option String
  invoice_number : String
  invoice_date : String
  invoice_due_date : Option String
deriving DecidableEq

/-- The `PaymentExtractor.extract` method of `pdf_agent.py`
(lines 29-161) after the LLM call: a missing or malformed function-call
response yields the explicit `{"error": "No valid extraction"}` result;
otherwise the extracted values are converted verbatim to the standard
invoice format — no field is defaulted or fabricated. -/
def extract (response : Option LLMExtraction) : Except String InvoiceData :=
  match response with
  | none => .error "No valid extraction"
  | some e =>
    .ok ⟨some e.invoice_number, some e.payment_amount, some e.payee_name,
      some e.invoice_date, e.invoice_due_date, e.payment_description,
      e.bank_details,
      some ⟨some e.payee_contact_type, e.payee_email, e.payee_phone,
        e.payee_address, e.payee_tax_id⟩,
      ⟨none, none, none, none, none⟩⟩

end PdfAgent

/-! ### Trace predicates and concrete test vectors -/

/-- Recognizer for checkout-URL requests in a trace. -/
def isCheckoutCall : ProviderCall → Bool
  | .checkoutUrlRequest _ _ => true
  | _ => false

/-- Recognizer for payee-search calls in a trace. -/
def isPayeeSearchCall : ProviderCall → Bool
  | .payeeSearch _ => true
  | _ => false

/-- Recognizer for payment dispatches in a trace. -/
def isDispatchCall : ProviderCall → Bool
  | .paymentDispatch _ _ _ => true
  | _ => false

/-- An email-reference dictionary with every key absent. -/
def emptyEmail : EmailData := ⟨none, none, none, none, none⟩

/-- An environment in which no collaborator responds. -/
def envNeutral : Env := ⟨none, none, none, none, none, false⟩

/-- A history record of a successful first run of invoice `INV-100`
(amount $500.00) from message `m1` / attachment `a1`. -/
def recC1 : HistoryRecord :=
  ⟨"2024-01-01T00:00:00",
   ⟨some "t1", some "m1", some "sender@acme.example", some "Invoice INV-100",
    some "a1"⟩,
   ⟨some "INV-100", some 50000, some "Acme LLC", some "2024-01-10", some "",
    some ""⟩,
   ⟨true, none, none, false, some "PAY-001", none⟩⟩

/-- The same invoice `INV-100` resubmitted with identical message and
attachment ids. -/
def invC1 : InvoiceData :=
  ⟨some "INV-100", some 50000, some "Acme LLC", some "2024-01-10", none, none,
   none, none,
   ⟨some "t1", some "m1", some "sender@acme.example", some "Invoice INV-100",
    some "a1"⟩⟩

/-- An environment with an ample balance, a matching payee and a payment
tool that would accept a dispatch. -/
def envC1 : Env :=
  ⟨some "Current balance: $1000.00", some [⟨"payee-1", "Acme LLC"⟩], none,
   some "Payment sent! Reference: REF-002", none, false⟩

/-- A history record for `INV-100` whose result is unsuccessful but carries
the error `"Invoice already processed"` (the settled marker the duplicate
check recognises). -/
def recC2 : HistoryRecord :=
  ⟨"2024-01-01T00:00:00",
   ⟨some "", some "m1", some "", some "", some "a1"⟩,
   ⟨some "INV-100", some 50000, some "Acme LLC", some "2024-01-10", some "",
    some ""⟩,
   ⟨false, some "Invoice already processed", none, false, none, none⟩⟩

/-- Invoice `INV-100` resubmitted with the same message/attachment ids as
`recC2`. -/
def invC2 : InvoiceData :=
  ⟨some "INV-100", some 50000, some "Acme LLC", some "2024-01-10", none, none,
   none, none, ⟨some "th1", some "m1", some "sx", some "sub", some "a1"⟩⟩

/-- An environment with sufficient balance and a dispatchable payee. -/
def envC2 : Env :=
  ⟨some "Current balance: $1000.00", some [⟨"payee-1", "Acme LLC"⟩], none,
   some "Payment sent! Reference: REF-001", none, false⟩

/-- An invoice whose amount is `0` (falsy), triggering validation. -/
def invC3w : InvoiceData :=
  ⟨some "INV-200", some 0, some "Acme LLC", none, none, none, none, none,
   emptyEmail⟩

/-- An invoice with the negative amount `-$500.00`. -/
def invC3 : InvoiceData :=
  ⟨some "INV-200", some (-50000), some "Acme LLC", none, none, none, none,
   none, emptyEmail⟩

/-- An environment with a zero balance, a matching payee and a payment tool
that acknowledges dispatches. -/
def envC3 : Env :=
  ⟨some "Current balance: $0.00", some [⟨"payee-9", "Acme LLC"⟩], none,
   some "OK Reference: NEGPAY-1", none, false⟩

/-- An invoice for $5,000.00. -/
def invC4 : InvoiceData :=
  ⟨some "INV-300", some 500000, some "Acme LLC", none, none, none, none, none,
   emptyEmail⟩

/-- An environment whose balance is only $100.00. -/
def envC4 : Env :=
  ⟨some "Current balance: $100.00", none, none, none, none, false⟩

/-- Complete inline bank details (holder, account, routing and type all
present). -/
def bdC5 : BankDetails :=
  ⟨some "John Smith", some "0123456", some "121000358", some "checking", none⟩

/-- An invoice for $500.00 carrying the complete bank details `bdC5`. -/
def invC5w : InvoiceData :=
  ⟨some "INV-400", some 50000, some "Acme LLC", none, none, none, some bdC5,
   none, emptyEmail⟩

/-- An environment where the bank-details dispatch succeeds while a
matching payee also exists. -/
def envC5w : Env :=
  ⟨some "Current balance: $1000.00", some [⟨"payee-5", "Acme LLC"⟩],
   some "Payment sent! Reference: B5REF", none, none, false⟩

/-- The invoice of `invC5w` again, for the run in which the bank-details
dispatch fails. -/
def invC5 : InvoiceData :=
  ⟨some "INV-400", some 50000, some "Acme LLC", none, none, none, some bdC5,
   none, emptyEmail⟩

/-- An environment where the bank-details dispatch returns no reference but
a matching payee exists and accepts the payment. -/
def envC5 : Env :=
  ⟨some "Current balance: $1000.00", some [⟨"payee-5", "Acme LLC"⟩],
   some "Error: dispatch failed", some "Done. Reference: P5REF", none, false⟩

/-- A pre-existing history record that shares `message_id` `m0` with the
payment data below. -/
def recC6 : HistoryRecord :=
  ⟨"2024-01-01T00:00:00",
   ⟨some "t0", some "m0", some "s0", some "u0", some "a0"⟩,
   ⟨some "INV-1", some 100, some "R", some "d", some "", some ""⟩,
   ⟨true, none, none, false, some "P-1", none⟩⟩

/-- Payment data for a different invoice that reuses message id `m0`. -/
def pdC6 : MultiAgent.MultiPaymentData :=
  ⟨emptyEmail, ⟨some "t9", some "m0", some "s9", some "u9", none⟩,
   ⟨some "INV-2", some 200, some "R2", none, none, none⟩,
   true, none, false, some "PAY-2", false, none, none⟩

/-- A fresh, payable invoice (spec scenario 1). -/
def invC7 : InvoiceData :=
  ⟨some "INV-100", some 50000, some "Acme LLC", none, none, none, none, none,
   ⟨some "t7", some "m7", some "s7", some "u7", some "a7"⟩⟩

/-- An environment in which scenario 1 completes as `paid`. -/
def envC7 : Env :=
  ⟨some "Current balance: $1000.00", some [⟨"payee-1", "Acme LLC"⟩], none,
   some "Payment sent! Reference: REF-100", none, false⟩

/-- Regex findings with no amount match at all. -/
def fC8a : Processor.RegexFindings :=
  ⟨some "INV-1", none, none, none, none, [], [], [], none⟩

/-- Regex findings with a $500.00 amount but no recipient match. -/
def fC8b : Processor.RegexFindings :=
  ⟨some "INV-1", some 50000, none, none, none, [], [], [], none⟩

/-- Regex findings with a $500.00 amount but neither an invoice number nor
a recipient match. -/
def fC8c : Processor.RegexFindings :=
  ⟨none, some 50000, none, none, none, [], [], [], none⟩

/-- An invoice for $500.00 used against a failing balance service. -/
def invC9 : InvoiceData :=
  ⟨some "INV-500", some 50000, some "Acme LLC", none, none, none, none, none,
   emptyEmail⟩

/-- An environment whose balance tool answers with an unparseable error
string. -/
def envC9 : Env :=
  ⟨some "Error: balance service unavailable", none, none, none, none, false⟩

/-! ### General lemmas -/

lemma data_append (a b : String) : (a ++ b).data = a.data ++ b.data := rfl

lemma append_ne_empty (a b : String) (h : a.data ≠ []) : a ++ b ≠ "" := by
  intro he
  have h2 : (a ++ b).data = ("" : String).data := congrArg String.data he
  rw [data_append] at h2
  simp only [List.append_eq_nil] at h2
  exact h h2.1

lemma isPrefixOf_append (l₁ l₂ l₃ : List Char) (h : l₁.isPrefixOf l₂ = true) :
    l₁.isPrefixOf (l₂ ++ l₃) = true := by
  induction l₁ generalizing l₂ with
  | nil => cases l₂ <;> simp [List.isPrefixOf]
  | cons a as ih =>
    cases l₂ with
    | nil => simp [List.isPrefixOf] at h
    | cons b bs =>
      simp only [List.cons_append, List.isPrefixOf, Bool.and_eq_true] at h ⊢
      exact ⟨h.1, ih bs h.2⟩

lemma sContains_append_left (pre suf pat : String)
    (h : pat.data.isPrefixOf pre.data = true) :
    sContains (pre ++ suf) pat = true := by
  unfold sContains findSub
  have hmem : 0 ∈ List.range ((pre ++ suf).data.length + 1) := by
    simp [List.mem_range]
  have hp : (fun i => pat.data.isPrefixOf ((pre ++ suf).data.drop i)) 0
      = true := by
    simp only [List.drop_zero, data_append]
    exact isPrefixOf_append _ _ _ h
  exact List.find?_isSome.mpr ⟨0, hmem, hp⟩

lemma sLower_append (a b : String) : sLower (a ++ b) = sLower a ++ sLower b := by
  have h2 : (sLower a ++ sLower b) =
      String.mk (a.data.map lowerChar ++ b.data.map lowerChar) := rfl
  rw [h2]
  unfold sLower
  rw [data_append, List.map_append]

/-- Any error message starting with `"Insufficient balance: "` is
classified `insufficient_funds` by `categorize_error`. -/
lemma categorize_error_insufficient (s : String) :
    MultiAgent.categorize_error (some ("Insufficient balance: " ++ s)) none =
      "insufficient_funds" := by
  have hne : ("Insufficient balance: " ++ s) ≠ "" :=
    append_ne_empty _ _ (by decide)
  have hcon : sContains (sLower ("Insufficient balance: " ++ s))
      "insufficient balance" = true := by
    rw [sLower_append]
    have hl : sLower "Insufficient balance: " = "insufficient balance: " := by
      decide
    rw [hl]
    exact sContains_append_left _ _ _ (by decide)
  unfold MultiAgent.categorize_error
  have horS : MultiAgent.orS (some ("Insufficient balance: " ++ s)) none =
      some ("Insufficient balance: " ++ s) := by
    simp [MultiAgent.orS, hne]
  rw [horS]
  simp only [Option.getD_some]
  rw [if_neg hne, hcon]
  simp

section Claims

open PaymentAgent

/-- Shared lemma: for a validated, non-duplicate, not-yet-processed invoice
whose amount exceeds the available balance, `process_payment` stops after
the balance check with the insufficient-balance failure. -/
lemma process_payment_insufficient_branch
    (history : HistoryFile) (env : Env) (inv : InvoiceData)
    (n rcp : String) (a : Money)
    (hn : inv.invoice_number = some n) (hn' : n ≠ "")
    (hr : inv.recipient = some rcp) (hr' : rcp ≠ "")
    (ha : inv.paid_amount = some a) (ha' : a ≠ 0)
    (hdup : is_duplicate_invoice history inv inv.email_data = none)
    (hproc : is_invoice_processed history n rcp = false)
    (hbal : check_balance env.balanceResponse < a) :
    process_payment history env inv =
      (⟨false, some (insufficient_balance_error
          (check_balance env.balanceResponse) a),
        inv.invoice_number, none, none, none, none, none, none⟩,
       [ProviderCall.balanceCheck]) := by
  have hmiss : missing_required_fields inv = [] := by
    simp [missing_required_fields, truthyStr, truthyMoney, hn, hr, ha, hn',
      hr', ha']
  unfold process_payment
  rw [hmiss, hdup]
  simp only [ne_eq, not_true_eq_false, if_false, reduceIte]
  rw [hn, hr]
  simp only [Option.getD_some]
  simp only [hproc, Bool.false_eq_true, if_false, reduceIte]
  simp only [ha, Option.getD_some]
  rw [if_pos hbal]

/-- Shared lemma: both branches of the duplicate outcome are unsuccessful
and carry `duplicate_info`. -/
lemma duplicate_result_shape (inv : InvoiceData) (dup : HistoryRecord) :
    (duplicate_result inv dup).success = false ∧
    (duplicate_result inv dup).duplicate_info ≠ none := by
  unfold duplicate_result
  split <;> simp

/-- Shared lemma: an if-then-else that either keeps a list or appends one
record extends the list. -/
lemma ite_append_only (c : Prop) [Decidable c] (h : List HistoryRecord)
    (x : HistoryRecord) : ∃ t, (if c then h else h ++ [x]) = h ++ t := by
  by_cases hc : c
  · rw [if_pos hc]
    exact ⟨[], (List.append_nil h).symm⟩
  · rw [if_neg hc]
    exact ⟨[x], rfl⟩

/-- C1: for every history state containing a successful record of the same
invoice under the same `(message_id, attachment_id)`, a second run of
`process_payment` returns an unsuccessful duplicate-style outcome (either
the `"Invoice was already processed"` error or a `duplicate_info` payload)
and performs no external call at all — in particular no payment
dispatch. -/
theorem second_run_after_recorded_success_short_circuits
    (history : HistoryFile) (h : List HistoryRecord) (env : Env)
    (inv : InvoiceData) (r : HistoryRecord) (n rcp : String) (a : Money)
    (hh : history = .ok h) (hmem : r ∈ h)
    (hn : inv.invoice_number = some n) (hn' : n ≠ "")
    (hr : inv.recipient = some rcp) (hr' : rcp ≠ "")
    (ha : inv.paid_amount = some a) (ha' : a ≠ 0)
    (hmid : r.email_data.message_id = inv.email_data.message_id)
    (haid : r.email_data.attachment_id = inv.email_data.attachment_id)
    (hrn : r.invoice_data.invoice_number = some n)
    (hrr : r.invoice_data.recipient = some rcp)
    (hsucc : r.result.success = true) :
    (process_payment history env inv).1.success = false ∧
    (process_payment history env inv).2 = [] ∧
    ((process_payment history env inv).1.error =
        some "Invoice was already processed" ∨
      (process_payment history env inv).1.duplicate_info ≠ none) := by
  subst hh
  have hmiss : missing_required_fields inv = [] := by
    simp [missing_required_fields, truthyStr, truthyMoney, hn, hr, ha,
      hn', hr', ha']
  have hproc : is_invoice_processed (.ok h) n rcp = true := by
    unfold is_invoice_processed
    rw [List.any_eq_true]
    exact ⟨r, hmem, by simp [hrn, hrr, hsucc]⟩
  unfold process_payment
  rw [hmiss]
  simp only [ne_eq, not_true_eq_false, if_false, reduceIte]
  cases hdup : is_duplicate_invoice (.ok h) inv inv.email_data with
  | some dup =>
    simp only [hdup]
    exact ⟨(duplicate_result_shape inv dup).1, trivial,
      Or.inr (duplicate_result_shape inv dup).2⟩
  | none =>
    simp only [hdup, hn, hr, Option.getD_some, hproc, if_true]
    exact ⟨trivial, trivial, Or.inl trivial⟩

/-- Witness for C1 at the concrete resubmission of invoice `INV-100`. -/
theorem second_run_after_recorded_success_short_circuits_witness :
    (process_payment (.ok [recC1]) envC1 invC1).1.success = false ∧
    (process_payment (.ok [recC1]) envC1 invC1).2 = [] ∧
    ((process_payment (.ok [recC1]) envC1 invC1).1.error =
        some "Invoice was already processed" ∨
      (process_payment (.ok [recC1]) envC1 invC1).1.duplicate_info ≠ none) :=
  second_run_after_recorded_success_short_circuits (.ok [recC1]) [recC1]
    envC1 invC1 recC1 "INV-100" "Acme LLC" 50000 rfl (by decide) rfl
    (by decide) rfl (by decide) rfl (by decide) rfl rfl rfl rfl rfl

/-- C2: a history record that matches the incoming invoice exactly on
`(message_id, attachment_id)` and carries
`error = "Invoice already processed"` with `success = false` does NOT stop
the pipeline: `is_duplicate_invoice` returns `None` for it, the
success-only `is_invoice_processed` check does not fire, and the run
proceeds all the way to a fresh successful payment dispatch — contradicting
the specified "stop and return a previously-processed outcome". -/
theorem already_processed_error_record_is_repaid :
    recC2.result.success = false ∧
    recC2.result.error = some "Invoice already processed" ∧
    exact_email_match invC2.email_data recC2 = true ∧
    (process_payment (.ok [recC2]) envC2 invC2).1.success = true ∧
    (process_payment (.ok [recC2]) envC2 invC2).2.filter isDispatchCall =
      [ProviderCall.paymentDispatch 50000 (.payee "payee-1")
        "Invoice INV-100"] := by decide

/-- C3 (amended): validation rejects exactly the Python-falsy fields — a
missing or zero amount, or a missing/empty invoice number or recipient —
returning the `"Missing required fields"` failure (classified
`validation_error` by `categorize_error`) before any external call. -/
theorem validation_rejects_only_falsy_fields (history : HistoryFile)
    (env : Env) (inv : InvoiceData)
    (h : truthyStr inv.invoice_number = false ∨
      truthyMoney inv.paid_amount = false ∨
      truthyStr inv.recipient = false) :
    (process_payment history env inv).2 = [] ∧
    (process_payment history env inv).1.success = false ∧
    ∃ msg, (process_payment history env inv).1.error = some msg ∧
      MultiAgent.categorize_error (some msg) none = "validation_error" := by
  cases hb1 : truthyStr inv.invoice_number <;>
    cases hb2 : truthyMoney inv.paid_amount <;>
    cases hb3 : truthyStr inv.recipient <;>
    unfold process_payment <;>
    simp only [missing_required_fields, hb1, hb2, hb3, if_true, if_false,
      Bool.false_eq_true, List.append_nil, List.nil_append, ne_eq,
      reduceIte] <;>
    first
    | exact ⟨rfl, rfl, _, rfl, by decide⟩
    | (rcases h with h | h | h <;> simp_all)

/-- Witness for the amended C3 at an invoice whose amount is zero. -/
theorem validation_rejects_only_falsy_fields_witness :
    (process_payment (.ok []) envNeutral invC3w).2 = [] ∧
    (process_payment (.ok []) envNeutral invC3w).1.success = false ∧
    ∃ msg, (process_payment (.ok []) envNeutral invC3w).1.error = some msg ∧
      MultiAgent.categorize_error (some msg) none = "validation_error" :=
  validation_rejects_only_falsy_fields (.ok []) envNeutral invC3w
    (Or.inr (Or.inl (by decide)))

/-- C3 counterexample: an invoice with amount `-$500.00` (≤ 0 but truthy)
passes validation, reaches the provider — balance check, payee search, and
even a successful dispatch of the negative amount — instead of failing
validation with no external call. -/
theorem negative_amount_bypasses_validation :
    invC3.paid_amount = some (-50000) ∧
    (process_payment (.ok []) envC3 invC3).1.success = true ∧
    (process_payment (.ok []) envC3 invC3).2.filter isDispatchCall =
      [ProviderCall.paymentDispatch (-50000) (.payee "payee-9")
        "Invoice INV-200"] ∧
    (process_payment (.ok []) envC3 invC3).2.filter isPayeeSearchCall =
      [ProviderCall.payeeSearch "Acme LLC"] := by decide

/-- C4 (amended): for a validated, non-duplicate invoice whose amount
exceeds the balance, the run stops right after the balance check — no payee
search, no dispatch, and also no checkout-URL attempt — and the returned
failure's error message is classified `insufficient_funds`. -/
theorem insufficient_balance_failfast
    (history : HistoryFile) (env : Env) (inv : InvoiceData)
    (n rcp : String) (a : Money)
    (hn : inv.invoice_number = some n) (hn' : n ≠ "")
    (hr : inv.recipient = some rcp) (hr' : rcp ≠ "")
    (ha : inv.paid_amount = some a) (ha' : a ≠ 0)
    (hdup : is_duplicate_invoice history inv inv.email_data = none)
    (hproc : is_invoice_processed history n rcp = false)
    (hbal : check_balance env.balanceResponse < a) :
    process_payment history env inv =
      (⟨false, some (insufficient_balance_error
          (check_balance env.balanceResponse) a),
        inv.invoice_number, none, none, none, none, none, none⟩,
       [ProviderCall.balanceCheck]) ∧
    MultiAgent.categorize_error
      (some (insufficient_balance_error (check_balance env.balanceResponse)
        a)) none = "insufficient_funds" :=
  ⟨process_payment_insufficient_branch history env inv n rcp a hn hn' hr hr'
      ha ha' hdup hproc hbal,
   categorize_error_insufficient _⟩

/-- Witness for the amended C4 at a $5,000.00 invoice against a $100.00
balance. -/
theorem insufficient_balance_failfast_witness :
    process_payment (.ok []) envC4 invC4 =
      (⟨false, some (insufficient_balance_error
          (check_balance envC4.balanceResponse) 500000),
        invC4.invoice_number, none, none, none, none, none, none⟩,
       [ProviderCall.balanceCheck]) ∧
    MultiAgent.categorize_error
      (some (insufficient_balance_error (check_balance envC4.balanceResponse)
        500000)) none = "insufficient_funds" :=
  insufficient_balance_failfast (.ok []) envC4 invC4 "INV-300" "Acme LLC"
    500000 rfl (by decide) rfl (by decide) rfl (by decide) rfl rfl (by decide)

/-- C4 counterexample: in the concrete insufficient-funds run the full
trace is the single balance check — `process_payment` never calls
`generate_checkout_url`, so no checkout-URL attempt is made for the
shortfall (and the result carries no checkout URL). -/
theorem insufficient_balance_no_checkout_attempt :
    (process_payment (.ok []) envC4 invC4).1.success = false ∧
    (process_payment (.ok []) envC4 invC4).1.error =
      some "Insufficient balance: $100.00 < $5,000.00" ∧
    (process_payment (.ok []) envC4 invC4).2 = [ProviderCall.balanceCheck] ∧
    (process_payment (.ok []) envC4 invC4).2.filter isCheckoutCall = [] := by
  decide

/-- C5 (amended): with complete inline bank details, the dispatch with the
inline destination happens first and, when the provider acknowledges it
with a reference, the run returns the `bank_details` success without any
payee search; the search result is consulted only if that dispatch
fails. -/
theorem complete_bank_details_dispatched_first
    (history : HistoryFile) (env : Env) (inv : InvoiceData)
    (n rcp : String) (a : Money) (bd : BankDetails) (pid : String)
    (hn : inv.invoice_number = some n) (hn' : n ≠ "")
    (hr : inv.recipient = some rcp) (hr' : rcp ≠ "")
    (ha : inv.paid_amount = some a) (ha' : a ≠ 0)
    (hdup : is_duplicate_invoice history inv inv.email_data = none)
    (hproc : is_invoice_processed history n rcp = false)
    (hbal : ¬ check_balance env.balanceResponse < a)
    (hbd : inv.bank_details = some bd)
    (hc1 : truthyStr bd.account_number = true)
    (hc2 : truthyStr bd.routing_number = true)
    (hc3 : truthyStr bd.account_type = true)
    (href : extractReference env.bankPaymentResponse = some pid) :
    process_payment history env inv =
      (⟨true, none, inv.invoice_number, some pid, some "bank_details",
        none, none, none, none⟩,
       [ProviderCall.balanceCheck,
        ProviderCall.paymentDispatch a (bank_payment_destination inv bd)
          (payment_memo inv)]) ∧
    ([ProviderCall.balanceCheck,
      ProviderCall.paymentDispatch a (bank_payment_destination inv bd)
        (payment_memo inv)].filter isPayeeSearchCall) = [] := by
  have hmiss : missing_required_fields inv = [] := by
    simp [missing_required_fields, truthyStr, truthyMoney, hn, hr, ha,
      hn', hr', ha']
  refine ⟨?_, rfl⟩
  unfold process_payment
  rw [hmiss, hdup]
  simp only [ne_eq, not_true_eq_false, if_false, reduceIte]
  rw [hn, hr]
  simp only [Option.getD_some]
  simp only [hproc, Bool.false_eq_true, if_false, reduceIte]
  simp only [ha, Option.getD_some]
  rw [if_neg hbal]
  unfold bank_details_step
  rw [hbd]
  simp only [hc1, hc2, hc3, Bool.and_self, if_true]
  rw [href]
  simp only [ha, Option.getD_some, hn, List.cons_append, List.nil_append]

/-- Witness for the amended C5 at a successful inline bank-details run. -/
theorem complete_bank_details_dispatched_first_witness :
    process_payment (.ok []) envC5w invC5w =
      (⟨true, none, invC5w.invoice_number, some "B5REF", some "bank_details",
        none, none, none, none⟩,
       [ProviderCall.balanceCheck,
        ProviderCall.paymentDispatch 50000
          (bank_payment_destination invC5w bdC5) (payment_memo invC5w)]) ∧
    ([ProviderCall.balanceCheck,
      ProviderCall.paymentDispatch 50000
        (bank_payment_destination invC5w bdC5)
        (payment_memo invC5w)].filter isPayeeSearchCall) = [] :=
  complete_bank_details_dispatched_first (.ok []) envC5w invC5w "INV-400"
    "Acme LLC" 50000 bdC5 "B5REF" rfl (by decide) rfl (by decide) rfl
    (by decide) rfl rfl (by decide) rfl (by decide) (by decide) (by decide)
    (by decide)

/-- C5 counterexample: the invoice carries complete inline bank details and
a matching payee exists, yet when the bank-details dispatch returns no
reference the pipeline falls back to the payee search and pays via the
search result (`payment_method = "existing_payee"`). -/
theorem failed_bank_dispatch_falls_back_to_payee_search :
    invC5.bank_details = some bdC5 ∧
    search_or_create_payee envC5.payeeSearchResponse =
      some ⟨"payee-5", "Acme LLC"⟩ ∧
    (process_payment (.ok []) envC5 invC5).1.success = true ∧
    (process_payment (.ok []) envC5 invC5).1.payment_method =
      some "existing_payee" ∧
    (process_payment (.ok []) envC5 invC5).2.filter isPayeeSearchCall =
      [ProviderCall.payeeSearch "Acme LLC"] := by decide

/-- C6 (amended): the `payment_agent.py` `save_payment_history` is
append-only — its output is always the prior list extended by at most one
record, every prior record kept unmodified in place. -/
theorem payment_agent_save_is_append_only (h : List HistoryRecord)
    (now : String) (e : EmailData) (inv : InvoiceData) (res : RunOutcome) :
    ∃ t, save_payment_history (.ok h) now e inv res = h ++ t :=
  ite_append_only _ h _

/-- C6 counterexample: the `multi_agent.py` `save_payment_history` deletes
a prior record that shares the incoming `message_id` before appending —
the record present before the append is gone afterwards. -/
theorem multi_agent_save_deletes_prior_records :
    recC6 ∈ [recC6] ∧
    recC6 ∉ MultiAgent.save_payment_history (.ok [recC6])
      "2024-02-02T00:00:00" pdC6 := by decide

/-- C7: the scenario-1 run reaches the `paid` outcome
(`success = true`, a payment id assigned) yet the history file afterwards
still holds zero records: no call site of either `save_payment_history`
exists in the repository, so no run ever appends a HistoryRecord. -/
theorem paid_run_appends_no_history_record :
    (MultiAgent.payment_step (.ok []) envC7 invC7).1.success = true ∧
    (MultiAgent.payment_step (.ok []) envC7 invC7).1.payment_id =
      some "REF-100" ∧
    (MultiAgent.payment_step (.ok []) envC7 invC7).2.2 = .ok [] := by decide

/-- C8 (amended): the regex extractor returns an explicit failure (`None`)
exactly when it cannot determine a positive amount; when the amount is
found but no recipient can be determined it substitutes the default
`"UNKNOWN RECIPIENT"` instead of failing; the LLM-based
`PaymentExtractor.extract` returns the explicit
`"No valid extraction"` error on a missing extraction. -/
theorem extractor_error_only_for_nonpositive_amount
    (f : Processor.RegexFindings) (ts dp : String) :
    (f.amount = none → f.amount_matches = [] →
      Processor.extract_payment_info_from_text f ts dp = none) ∧
    (∀ a, f.amount = some a → 0 < a → f.recipient_name = none →
      f.name_matches = [] →
      ∃ p, Processor.extract_payment_info_from_text f ts dp = some p ∧
        p.recipientName = "UNKNOWN RECIPIENT" ∧ p.amount = a) ∧
    PdfAgent.extract none = Except.error "No valid extraction" := by
  refine ⟨?_, ?_, rfl⟩
  · intro h1 h2
    unfold Processor.extract_payment_info_from_text
    rw [h1, h2]
    simp
  · intro a ha hpos hrn hnm
    unfold Processor.extract_payment_info_from_text
    rw [ha, hrn, hnm]
    simp only [List.find?_nil, Option.getD_none, Option.getD_some]
    rw [if_neg (not_le.mpr hpos)]
    exact ⟨_, rfl, rfl, rfl⟩

/-- Witness for the amended C8: no-amount findings yield `none`; an
amount-only finding yields the defaulted recipient. -/
theorem extractor_error_only_for_nonpositive_amount_witness :
    Processor.extract_payment_info_from_text fC8a "20240101000000" "202401" =
      none ∧
    ∃ p, Processor.extract_payment_info_from_text fC8b "20240101000000"
        "202401" = some p ∧
      p.recipientName = "UNKNOWN RECIPIENT" ∧ p.amount = 50000 :=
  ⟨(extractor_error_only_for_nonpositive_amount fC8a "20240101000000"
      "202401").1 rfl rfl,
   (extractor_error_only_for_nonpositive_amount fC8b "20240101000000"
      "202401").2.1 50000 rfl (by decide) rfl rfl⟩

/-- C8 counterexample: for a text where the extraction determines neither a
recipient nor an invoice number (but finds an amount), the extractor does
not return an error — it fabricates the invoice number
`AUTO-<timestamp>` and substitutes the default recipient. -/
theorem extractor_fabricates_number_and_recipient :
    Processor.extract_payment_info_from_text fC8c "20240101000000" "202401" =
      some ⟨"AUTO-20240101000000", 50000, "USD", "UNKNOWN RECIPIENT",
        "Software Development Services"⟩ := by decide

/-- C9: a failing balance retrieval — no response, an empty string, or an
unparseable string — makes `check_balance` report `0`, and a validated,
non-duplicate invoice with positive amount then fails with the
insufficient-balance error (not a balance-service error), right after the
balance check. -/
theorem balance_failure_collapses_to_zero_insufficient
    (history : HistoryFile) (env : Env) (inv : InvoiceData)
    (n rcp : String) (a : Money)
    (hn : inv.invoice_number = some n) (hn' : n ≠ "")
    (hr : inv.recipient = some rcp) (hr' : rcp ≠ "")
    (ha : inv.paid_amount = some a)
    (hdup : is_duplicate_invoice history inv inv.email_data = none)
    (hproc : is_invoice_processed history n rcp = false)
    (hpos : 0 < a)
    (hfail : env.balanceResponse = none ∨
      ∃ s, env.balanceResponse = some s ∧
        (s = "" ∨ parseBalanceResponse s = none)) :
    check_balance env.balanceResponse = 0 ∧
    process_payment history env inv =
      (⟨false, some (insufficient_balance_error 0 a),
        inv.invoice_number, none, none, none, none, none, none⟩,
       [ProviderCall.balanceCheck]) := by
  have h0 : check_balance env.balanceResponse = 0 := by
    rcases hfail with h | ⟨s, hs, h'⟩
    · rw [h]; rfl
    · rw [hs]
      show (if s = "" then 0 else (parseBalanceResponse s).getD 0) = 0
      rcases h' with he | hp
      · rw [if_pos he]
      · by_cases hse : s = ""
        · rw [if_pos hse]
        · rw [if_neg hse, hp]; rfl
  refine ⟨h0, ?_⟩
  have hres := process_payment_insufficient_branch history env inv n rcp a
    hn hn' hr hr' ha hpos.ne' hdup hproc (by rw [h0]; exact hpos)
  rwa [h0] at hres

/-- Witness for C9 at a balance tool answering with an error string. -/
theorem balance_failure_collapses_to_zero_insufficient_witness :
    check_balance envC9.balanceResponse = 0 ∧
    process_payment (.ok []) envC9 invC9 =
      (⟨false, some (insufficient_balance_error 0 50000),
        invC9.invoice_number, none, none, none, none, none, none⟩,
       [ProviderCall.balanceCheck]) :=
  balance_failure_collapses_to_zero_insufficient (.ok []) envC9 invC9
    "INV-500" "Acme LLC" 50000 rfl (by decide) rfl (by decide) rfl rfl rfl
    (by decide)
    (Or.inr ⟨"Error: balance service unavailable", rfl, Or.inr (by decide)⟩)

/-- C10: the duplicate-detection functions are total on bad history inputs
— a missing, unreadable or invalid-JSON file makes `is_duplicate_invoice`
return `none` and `is_invoice_processed` return `false`, and the whole
`process_payment` run then behaves exactly as on an empty history. -/
theorem duplicate_checks_total_on_missing_or_invalid_history
    (env : Env) (inv : InvoiceData) (e : EmailData) (n rcp : String) :
    is_duplicate_invoice .absent inv e = none ∧
    is_duplicate_invoice .corrupt inv e = none ∧
    is_invoice_processed .absent n rcp = false ∧
    is_invoice_processed .corrupt n rcp = false ∧
    process_payment .absent env inv = process_payment (.ok []) env inv ∧
    process_payment .corrupt env inv = process_payment (.ok []) env inv :=
  ⟨rfl, rfl, rfl, rfl, rfl, rfl⟩

end Claims

end InvoicePipeline
